import Mathlib

/-!
Verification development for the superset-fastmcp request-dispatch and
authentication core (`app/tools/core.py`, `app/tools/auth.py`,
`app/tools/dashboard.py`).

The Python code is embedded shallowly:

* JSON values become the inductive `JVal`; Python `dict.get` becomes
  `JVal.get`, Python truthiness becomes `JVal.truthy` / `truthy?` /
  `truthyStr`.
* The mutable `AnalyticsContext` (access token, CSRF token, the HTTP
  client's default `Authorization` header) together with the token cache
  file and a log of issued HTTP requests form the `World` state.
* Async functions that mutate the context and may raise become values of
  the monad `M α := World → Except Exc α × World`; note the state is
  threaded through exceptions, matching Python where mutations performed
  before a `raise` persist.
* Network behaviour is an oracle `Nat → Req → Except Exc Response` mapping
  the index of the call (the number of previously issued requests) and the
  request to either a response or a transport exception.  Issuing a request
  appends it to the world's call log, also when the transport raises.
* Runtime name resolution is modelled where it determines behaviour.
  `core.py` line 196 runs `from .auth import analytics_auth_refresh_token,
  analytics_auth_authenticate_user` on every 401, but `auth.py` defines
  those names only as locals of `register_auth_tools`, so the import
  raises `ImportError` and the refresh/re-authentication block below it is
  unreachable.  `core.py` also never imports `HTTPException`, so the
  `raise HTTPException(...)` statements at lines 184 and 204 actually
  raise `NameError`.  `auto_refresh_token` embeds both failures as the
  exceptions they raise.  The auth tools themselves are still embedded in
  full: inside `auth.py` they call each other as closures, which works.
* Each function keeps its source name; the decorators
  `requires_authentication` and `handle_platform_errors` are embedded as
  combinators and applied where the source applies them.
-/

/-- A JSON value as passed around by the Python code (dict / str / bool /
number / null). -/
inductive JVal where
  | str : String → JVal
  | bool : Bool → JVal
  | num : Int → JVal
  | obj : List (String × JVal) → JVal
  | null : JVal
deriving Repr

/-- Python `d.get(k)` on a dict-shaped JSON value: the value at the first
matching key, `none` when absent or when the value is not a dict. -/
def JVal.get : JVal → String → Option JVal
  | .obj fields, k => List.lookup k fields
  | _, _ => none

/-- Python truthiness of a JSON value. -/
def JVal.truthy : JVal → Bool
  | .str s => s ≠ ""
  | .bool b => b
  | .num n => n ≠ 0
  | .obj fields => ¬ fields.isEmpty
  | .null => false

/-- Python truthiness of an optional JSON value (`None` is falsy). -/
def truthy? : Option JVal → Bool
  | none => false
  | some v => v.truthy

/-- Python truthiness of an optional string (`None` and `""` are falsy). -/
def truthyStr : Option String → Bool
  | none => false
  | some s => s ≠ ""

/-- Python `str.lower()` (ASCII case folding, as applied to HTTP method
names). -/
def pyLower (s : String) : String := ⟨s.data.map Char.toLower⟩

/-- Python `str.strip()`: drop whitespace from both ends. -/
def pyStrip (s : String) : String :=
  ⟨((s.data.dropWhile Char.isWhitespace).reverse.dropWhile Char.isWhitespace).reverse⟩

/-- An HTTP request as issued through the shared `httpx` client: method,
endpoint, JSON payload, query params, and the `X-CSRFToken` header value
when one is attached. -/
inductive Req where
  | get : String → Option JVal → Req
  | post : String → Option JVal → Option JVal → Option String → Req
  | put : String → Option JVal → Option String → Req
  | delete : String → Option String → Req
deriving Repr

/-- An HTTP response: status code, raw text, and parsed JSON body. -/
structure Response where
  status : Nat
  text : String
  body : JVal
deriving Repr

/-- Exceptions that flow through the embedded code:
`httpx.HTTPStatusError` carrying its response, `ValueError` for
unsupported methods, transport-level failures, the `ImportError` raised
by `from .auth import ...` at `core.py` line 196 (the imported names are
locals of `register_auth_tools`, not module attributes), the `NameError`
raised by evaluating the undefined name `HTTPException` at `core.py`
lines 184/204, and `HTTPException` itself (status, detail) — which the
source text tries to raise but which can never actually be constructed;
it is kept so that statements can say what the code does *not* fail
with. -/
inductive Exc where
  | httpException : Nat → String → Exc
  | httpStatusError : Response → Exc
  | valueError : String → Exc
  | transport : String → Exc
  | importError : String → Exc
  | nameError : String → Exc
deriving Repr

/-- Python `str(e)` for an exception, as spliced into error messages. -/
def Exc.msg : Exc → String
  | .httpException s d => toString s ++ ": " ++ d
  | .httpStatusError r => r.text
  | .valueError m => m
  | .transport m => m
  | .importError m => m
  | .nameError m => m

/-- The mutable part of `AnalyticsContext` relevant to the claims: the
bearer token, the CSRF token, and the client's default `Authorization`
header. -/
structure Ctx where
  access_token : Option String
  csrf_token : Option String
  auth_header : Option String
deriving Repr

/-- The full state: the context, the contents of the token cache file
(`none` when absent), and the log of HTTP requests issued so far. -/
structure World where
  ctx : Ctx
  cache_file : Option String
  calls : List Req
deriving Repr

/-- The effect monad of the embedding: state plus exceptions, with the
state threaded through exceptions (Python mutations persist past a
`raise`). -/
def M (α : Type) : Type := World → Except Exc α × World

def M.pure {α : Type} (a : α) : M α := fun w => (Except.ok a, w)

def M.bind {α β : Type} (x : M α) (f : α → M β) : M β := fun w =>
  match x w with
  | (Except.ok a, w') => f a w'
  | (Except.error e, w') => (Except.error e, w')

instance : Monad M where
  pure := M.pure
  bind := M.bind

/-- Python `raise e`. -/
def M.throw {α : Type} (e : Exc) : M α := fun w => (Except.error e, w)

/-- Python `try: x except Exception as e: h e`. -/
def M.tryCatch {α : Type} (x : M α) (h : Exc → M α) : M α := fun w =>
  match x w with
  | (Except.ok a, w') => (Except.ok a, w')
  | (Except.error e, w') => h e w'

/-- Read the current state. -/
def getWorld : M World := fun w => (Except.ok w, w)

/-- Update the current state. -/
def modifyWorld (f : World → World) : M Unit := fun w => (Except.ok (), f w)

/-- The network behaviour: from the index of the call (number of previously
issued requests) and the request, either a response or a transport
exception. -/
def Oracle : Type := Nat → Req → Except Exc Response

/-- Issue one HTTP request through the client: look up the oracle at the
current call index and append the request to the log (also when the
transport raises — the call was attempted). -/
def httpCall (oracle : Oracle) (r : Req) : M Response := fun w =>
  (oracle w.calls.length r, { w with calls := w.calls ++ [r] })

/-- The process-wide configuration: the network oracle plus the
`ANALYTICS_USER` / `ANALYTICS_PASS` environment variables. -/
structure Env where
  oracle : Oracle
  analytics_user : Option String
  analytics_pass : Option String

/-- `core.py` `load_cached_token`: read the cache file, stripping
whitespace; `none` on any failure or when absent. -/
def load_cached_token : M (Option String) := do
  let w ← getWorld
  pure (w.cache_file.map pyStrip)

/-- `core.py` `cache_access_token`: overwrite the cache file with the
token (best effort; the model's write always succeeds). -/
def cache_access_token (token : String) : M Unit :=
  modifyWorld (fun w => { w with cache_file := some token })

/-- `core.py` `requires_authentication`: short-circuit with an error
payload when `ctx.access_token` is falsy, otherwise run the wrapped
body. -/
def requires_authentication (body : M JVal) : M JVal := do
  let w ← getWorld
  if ¬ truthyStr w.ctx.access_token then
    pure (JVal.obj [("error", JVal.str "Not authenticated. Please authenticate first.")])
  else
    body

/-- `core.py` `handle_platform_errors`: catch any exception escaping the
body and flatten it to an error payload naming the wrapped function. -/
def handle_platform_errors (function_name : String) (body : M JVal) : M JVal :=
  M.tryCatch body
    (fun e => M.pure (JVal.obj
      [("error", JVal.str ("Error in " ++ function_name ++ ": " ++ e.msg))]))

/-- `core.py` `fetch_csrf_token`: GET the CSRF endpoint; on 200 store
`body["result"]` into `ctx.csrf_token` (possibly clearing it) and return
it; on any other status or exception return `none` without touching the
context. -/
def fetch_csrf_token (env : Env) : M (Option JVal) :=
  M.tryCatch
    (do
      let response ← httpCall env.oracle (Req.get "/api/v1/security/csrf_token/" none)
      if response.status = 200 then do
        let csrf_token := response.body.get "result"
        modifyWorld (fun w => { w with ctx := { w.ctx with
          csrf_token := match csrf_token with
            | some (JVal.str s) => some s
            | _ => none } })
        pure csrf_token
      else
        pure none)
    (fun _ => M.pure none)

/-- `auth.py` `analytics_auth_check_token_validity` (body, before the
`handle_platform_errors` decorator): no token ⇒ invalid without a network
call; otherwise GET `/api/v1/me/` and map 200 to valid, anything else to
invalid with detail, an exception to invalid with its message. -/
def check_token_validity_core (env : Env) : M JVal := do
  let w ← getWorld
  if ¬ truthyStr w.ctx.access_token then
    pure (JVal.obj [("valid", JVal.bool false),
                    ("error", JVal.str "No access token available")])
  else
    M.tryCatch
      (do
        let response ← httpCall env.oracle (Req.get "/api/v1/me/" none)
        if response.status = 200 then
          pure (JVal.obj [("valid", JVal.bool true)])
        else
          pure (JVal.obj [("valid", JVal.bool false),
                          ("status_code", JVal.num response.status),
                          ("error", JVal.str response.text)]))
      (fun e => M.pure (JVal.obj [("valid", JVal.bool false),
                                  ("error", JVal.str e.msg)]))

/-- `auth.py` `analytics_auth_check_token_validity` as registered: the
body wrapped by `handle_platform_errors`. -/
def analytics_auth_check_token_validity (env : Env) : M JVal :=
  handle_platform_errors "analytics_auth_check_token_validity"
    (check_token_validity_core env)

/-- `auth.py` `analytics_auth_refresh_token` (body): requires an existing
token; POST the refresh endpoint; non-200 ⇒ error with status and text;
missing or falsy `access_token` in the body ⇒ error; on success cache the
token, set `ctx.access_token`, update the default `Authorization` header
and return the token. -/
def refresh_token_core (env : Env) : M JVal := do
  let w ← getWorld
  if ¬ truthyStr w.ctx.access_token then
    pure (JVal.obj [("error", JVal.str "No access token to refresh. Please authenticate first.")])
  else
    M.tryCatch
      (do
        let response ← httpCall env.oracle (Req.post "/api/v1/security/refresh" none none none)
        if response.status ≠ 200 then
          pure (JVal.obj [("error", JVal.str
            ("Failed to refresh token: " ++ toString response.status ++ " - " ++ response.text))])
        else
          match response.body.get "access_token" with
          | some (JVal.str access_token) =>
            if access_token = "" then
              pure (JVal.obj [("error", JVal.str "No access token returned from refresh")])
            else do
              cache_access_token access_token
              modifyWorld (fun w => { w with ctx := { w.ctx with
                access_token := some access_token,
                auth_header := some ("Bearer " ++ access_token) } })
              pure (JVal.obj [("message", JVal.str "Successfully refreshed access token"),
                              ("access_token", JVal.str access_token)])
          | _ =>
            pure (JVal.obj [("error", JVal.str "No access token returned from refresh")]))
      (fun e => M.pure (JVal.obj [("error", JVal.str ("Error refreshing token: " ++ e.msg))]))

/-- `auth.py` `analytics_auth_refresh_token` as registered: the body
wrapped by `handle_platform_errors`. -/
def analytics_auth_refresh_token (env : Env) : M JVal :=
  handle_platform_errors "analytics_auth_refresh_token" (refresh_token_core env)

/-- Python `username or ANALYTICS_USER`: the left value when truthy,
otherwise the right. -/
def orStr (a b : Option String) : Option String :=
  if truthyStr a then a else b

/-- `auth.py` `analytics_auth_authenticate_user`, lines 99–132: the login
fall-through after the early-return block — resolve credentials against
the environment, error when either is falsy, otherwise POST the login
endpoint; non-200 ⇒ error; missing token ⇒ error; on success cache the
token, update context and default header, best-effort fetch a CSRF token,
and return success. -/
def authenticate_login (env : Env) (username password : Option String) (refresh : Bool) : M JVal := do
  let username := orStr username env.analytics_user
  let password := orStr password env.analytics_pass
  if ¬ truthyStr username ∨ ¬ truthyStr password then
    pure (JVal.obj [("error", JVal.str
      "Username and password must be provided via arguments or environment variables")])
  else
    M.tryCatch
      (do
        let response ← httpCall env.oracle (Req.post "/api/v1/security/login"
          (some (JVal.obj
            [("username", match username with | some s => JVal.str s | none => JVal.null),
             ("password", match password with | some s => JVal.str s | none => JVal.null),
             ("provider", JVal.str "db"),
             ("refresh", JVal.bool refresh)]))
          none none)
        if response.status ≠ 200 then
          pure (JVal.obj [("error", JVal.str
            ("Failed to get access token: " ++ toString response.status ++ " - " ++ response.text))])
        else
          match response.body.get "access_token" with
          | some (JVal.str access_token) =>
            if access_token = "" then
              pure (JVal.obj [("error", JVal.str "No access token returned")])
            else do
              cache_access_token access_token
              modifyWorld (fun w => { w with ctx := { w.ctx with
                access_token := some access_token,
                auth_header := some ("Bearer " ++ access_token) } })
              let _ ← fetch_csrf_token env
              pure (JVal.obj [("message", JVal.str "Successfully authenticated with Analytics platform"),
                              ("access_token", JVal.str access_token)])
          | _ =>
            pure (JVal.obj [("error", JVal.str "No access token returned")]))
      (fun e => M.pure (JVal.obj [("error", JVal.str ("Authentication error: " ++ e.msg))]))

/-- `auth.py` `analytics_auth_authenticate_user` (body): when a token
exists, check validity and return "already authenticated" if valid; else
when `refresh` is requested, try the refresh path and return its result if
it did not error; otherwise fall through to the login path
(`authenticate_login`). -/
def authenticate_user_core (env : Env) (username password : Option String) (refresh : Bool) : M JVal := do
  let w ← getWorld
  if truthyStr w.ctx.access_token then do
    let validity ← analytics_auth_check_token_validity env
    if truthy? (validity.get "valid") then do
      let w2 ← getWorld
      pure (JVal.obj [("message", JVal.str "Already authenticated with valid token"),
                      ("access_token", match w2.ctx.access_token with
                        | some s => JVal.str s
                        | none => JVal.null)])
    else if refresh then do
      let refresh_result ← analytics_auth_refresh_token env
      if ¬ truthy? (refresh_result.get "error") then
        pure refresh_result
      else
        authenticate_login env username password refresh
    else
      authenticate_login env username password refresh
  else
    authenticate_login env username password refresh

/-- `auth.py` `analytics_auth_authenticate_user` as registered: the body
wrapped by `handle_platform_errors`. -/
def analytics_auth_authenticate_user (env : Env)
    (username password : Option String := none) (refresh : Bool := true) : M JVal :=
  handle_platform_errors "analytics_auth_authenticate_user"
    (authenticate_user_core env username password refresh)

/-- `core.py` `auto_refresh_token`, as it actually executes.  With no
token present, line 184 tries `raise HTTPException(...)`, but
`HTTPException` is never imported in `core.py`, so evaluating the name
raises `NameError`.  Otherwise the call runs once inside the try block of
lines 185–194: a non-401 response returns as-is, a non-401
`HTTPStatusError` is re-raised, other exceptions propagate.  On a 401 the
function falls through to line 196, `from .auth import
analytics_auth_refresh_token, analytics_auth_authenticate_user` — but
those names are locals of `register_auth_tools`, not attributes of the
`auth` module, so the import raises `ImportError` (outside the try
block, hence uncaught): the refresh / re-authentication / retry block of
lines 197–205 is unreachable. -/
def auto_refresh_token (api_call : M Response) : M Response := do
  let w ← getWorld
  if ¬ truthyStr w.ctx.access_token then
    M.throw (Exc.nameError "name HTTPException is not defined")
  else do
    let tried ← M.tryCatch
      (do
        let response ← api_call
        if response.status ≠ 401 then
          pure (Sum.inl response)
        else
          pure (Sum.inr response))
      (fun e => match e with
        | Exc.httpStatusError resp =>
          if resp.status ≠ 401 then
            M.throw (Exc.httpStatusError resp)
          else
            M.pure (Sum.inr resp)
        | e' => M.throw e')
    match tried with
    | Sum.inl response => pure response
    | Sum.inr _ =>
      M.throw (Exc.importError
        "cannot import name analytics_auth_refresh_token from app.tools.auth")

/-- `core.py` `make_platform_request`, inner `make_request`: build the
headers (CSRF header on non-GET when a token is held) and issue one
request through the client; unsupported methods raise `ValueError`. -/
def make_request (env : Env) (method endpoint : String)
    (dat params : Option JVal) : M Response := do
  let w ← getWorld
  let headers : Option String :=
    if pyLower method ≠ "get" ∧ truthyStr w.ctx.csrf_token then w.ctx.csrf_token else none
  if pyLower method = "get" then
    httpCall env.oracle (Req.get endpoint params)
  else if pyLower method = "post" then
    httpCall env.oracle (Req.post endpoint dat params headers)
  else if pyLower method = "put" then
    httpCall env.oracle (Req.put endpoint dat headers)
  else if pyLower method = "delete" then
    httpCall env.oracle (Req.delete endpoint headers)
  else
    M.throw (Exc.valueError ("Unsupported HTTP method: " ++ method))

/-- `core.py` `make_platform_request`: lazily fetch a CSRF token before a
non-GET call when none is held; run the call through `auto_refresh_token`
when `auto_refresh` is set, else once directly; map status 200/201 to the
parsed JSON body and any other status to an error payload carrying status
and text. -/
def make_platform_request (env : Env) (method endpoint : String)
    (dat params : Option JVal) (auto_refresh : Bool) : M JVal := do
  let w ← getWorld
  if pyLower method ≠ "get" ∧ ¬ truthyStr w.ctx.csrf_token then
    let _ ← fetch_csrf_token env
  let response ←
    if auto_refresh then
      auto_refresh_token (make_request env method endpoint dat params)
    else
      make_request env method endpoint dat params
  if response.status ≠ 200 ∧ response.status ≠ 201 then
    pure (JVal.obj [("error", JVal.str
      ("API request failed: " ++ toString response.status ++ " - " ++ response.text))])
  else
    pure response.body

/-- `dashboard.py` `analytics_dashboard_list`: a GET of `/api/v1/dashboard/`
through the dispatcher, wrapped (inside out) by `handle_platform_errors`
then `requires_authentication`. -/
def analytics_dashboard_list (env : Env) : M JVal :=
  requires_authentication (handle_platform_errors "analytics_dashboard_list"
    (make_platform_request env "get" "/api/v1/dashboard/" none none true))

/-- Is the request a GET of the given endpoint? (for counting calls in the
request log). -/
def Req.isGetTo (e : String) : Req → Bool
  | Req.get e' _ => e' == e
  | _ => false

/-- Is the request a POST to the given endpoint? (for counting calls in the
request log). -/
def Req.isPostTo (e : String) : Req → Bool
  | Req.post e' _ _ _ => e' == e
  | _ => false

/-- Fixture: an authenticated starting state (token `tk1`, no CSRF token,
empty cache and call log). -/
def wAuthed : World := ⟨⟨some "tk1", none, none⟩, none, []⟩

/-- Fixture: an unauthenticated starting state. -/
def wEmpty : World := ⟨⟨none, none, none⟩, none, []⟩

/-- Fixture: a state holding an access token and a CSRF token. -/
def wCsrf : World := ⟨⟨some "tk1", some "csrf0", none⟩, none, []⟩

/-- Fixture oracle for the 401-retry scenario: 401 on the first call, a
successful refresh on the second, 200 with a payload on the third. -/
def c1Oracle : Oracle := fun n _ =>
  match n with
  | 0 => Except.ok ⟨401, "unauthorized", JVal.null⟩
  | 1 => Except.ok ⟨200, "", JVal.obj [("access_token", JVal.str "tk2")]⟩
  | _ => Except.ok ⟨200, "", JVal.obj [("result", JVal.str "rows")]⟩

/-- Fixture oracle for the 401-exhaustion scenario: every request gets a
401 response. -/
def c2Oracle : Oracle := fun _ _ => Except.ok ⟨401, "unauthorized", JVal.null⟩

/-- Fixture oracle returning 404 `not found` to every request. -/
def c5Oracle : Oracle := fun _ _ => Except.ok ⟨404, "not found", JVal.null⟩

/-- Fixture oracle whose identity check succeeds. -/
def c6Oracle : Oracle := fun _ _ =>
  Except.ok ⟨200, "", JVal.obj [("username", JVal.str "u")]⟩

/-- Fixture oracle whose refresh succeeds with token `tok123`. -/
def c7Oracle : Oracle := fun _ _ =>
  Except.ok ⟨200, "", JVal.obj [("access_token", JVal.str "tok123")]⟩

/-- Fixture oracle: 200 with a JSON dict lacking the `result` field. -/
def c9aOracle : Oracle := fun _ _ =>
  Except.ok ⟨200, "", JVal.obj [("count", JVal.num 3)]⟩

/-- Fixture oracle: plain 503 failure on every request. -/
def c9bOracle : Oracle := fun _ _ => Except.ok ⟨503, "down", JVal.null⟩

/-- Fixture oracle: transport failure on every request. -/
def c9cOracle : Oracle := fun _ _ => Except.error (Exc.transport "connection reset")

theorem bind_app {α β : Type} (x : M α) (f : α → M β) (w : World) :
    (x >>= f) w = (match x w with
      | (Except.ok a, w') => f a w'
      | (Except.error e, w') => (Except.error e, w')) := rfl

theorem pure_app {α : Type} (a : α) (w : World) : (pure a : M α) w = (Except.ok a, w) := rfl

theorem get_lower : pyLower "get" = "get" := by decide

theorem make_request_get (env : Env) (e : String) (dat params : Option JVal) (w : World) :
    make_request env "get" e dat params w =
      (env.oracle w.calls.length (Req.get e params),
       { w with calls := w.calls ++ [Req.get e params] }) := by
  simp [make_request, bind_app, getWorld, httpCall, get_lower]

theorem refresh_success (env : Env) (w : World) (t tok : String) (r : Response)
    (ht : w.ctx.access_token = some t) (ht' : t ≠ "")
    (ho : env.oracle w.calls.length (Req.post "/api/v1/security/refresh" none none none) = Except.ok r)
    (hs : r.status = 200)
    (hb : r.body.get "access_token" = some (JVal.str tok)) (htok : tok ≠ "") :
    analytics_auth_refresh_token env w =
      (Except.ok (JVal.obj [("message", JVal.str "Successfully refreshed access token"),
                            ("access_token", JVal.str tok)]),
       { w with
         ctx := { w.ctx with access_token := some tok, auth_header := some ("Bearer " ++ tok) },
         cache_file := some tok,
         calls := w.calls ++ [Req.post "/api/v1/security/refresh" none none none] }) := by
  simp [analytics_auth_refresh_token, handle_platform_errors, refresh_token_core,
    bind_app, pure_app, getWorld, M.tryCatch, M.pure, httpCall, modifyWorld,
    cache_access_token, ho, hs, hb, ht, truthyStr, ht', htok]

theorem check_validity_valid (env : Env) (w : World) (t : String) (r : Response)
    (ht : w.ctx.access_token = some t) (ht' : t ≠ "")
    (ho : env.oracle w.calls.length (Req.get "/api/v1/me/" none) = Except.ok r)
    (hs : r.status = 200) :
    analytics_auth_check_token_validity env w =
      (Except.ok (JVal.obj [("valid", JVal.bool true)]),
       { w with calls := w.calls ++ [Req.get "/api/v1/me/" none] }) := by
  simp [analytics_auth_check_token_validity, handle_platform_errors, check_token_validity_core,
    bind_app, pure_app, getWorld, M.tryCatch, M.pure, httpCall, ht, truthyStr, ht', ho, hs]

theorem valid_key_true :
    truthy? ((JVal.obj [("valid", JVal.bool true)]).get "valid") = true := by
  simp [JVal.get, List.lookup, truthy?, JVal.truthy]

/-- Claim C1 (code bug): at the claim's 401-retry input — first execution
401, refresh POST would succeed with a fresh token, second execution
would return 200 — the dispatcher never reaches the refresh: the
`from .auth import ...` inside `auto_refresh_token` (core.py line 196)
raises `ImportError` because those names are locals of
`register_auth_tools`.  The call fails with that `ImportError` after
executing the underlying call exactly once; no refresh POST is issued, no
retry happens, and the 200 payload is never returned. -/
theorem c1_import_error_on_401 (env : Env) (e t tok : String) (c a f : Option String)
    (params : Option JVal) (r1 rRef r2 : Response)
    (ht : t ≠ "") (htok : tok ≠ "")
    (ho0 : env.oracle 0 (Req.get e params) = Except.ok r1) (h401 : r1.status = 401)
    (ho1 : env.oracle 1 (Req.post "/api/v1/security/refresh" none none none) = Except.ok rRef)
    (hRefS : rRef.status = 200)
    (hRefB : rRef.body.get "access_token" = some (JVal.str tok))
    (ho2 : env.oracle 2 (Req.get e params) = Except.ok r2) (h200 : r2.status = 200) :
    make_platform_request env "get" e none params true ⟨⟨some t, c, a⟩, f, []⟩ =
      (Except.error (Exc.importError
        "cannot import name analytics_auth_refresh_token from app.tools.auth"),
       ⟨⟨some t, c, a⟩, f, [Req.get e params]⟩) ∧
    ([Req.get e params].filter (Req.isGetTo e)).length = 1 ∧
    ([Req.get e params].filter (Req.isPostTo "/api/v1/security/refresh")).length = 0 := by
  have hc1 : make_request env "get" e none params ⟨⟨some t, c, a⟩, f, []⟩ =
      (Except.ok r1, ⟨⟨some t, c, a⟩, f, [Req.get e params]⟩) := by
    simp [make_request_get, ho0]
  refine ⟨?_, by simp [Req.isGetTo], by simp [Req.isPostTo]⟩
  simp [make_platform_request, bind_app, pure_app, getWorld, get_lower,
    auto_refresh_token, M.tryCatch, M.throw, hc1, h401, truthyStr, ht]

/-- Claim C6: with a token the identity check reports valid, a second
authenticate call with no arguments returns the already-authenticated
success immediately, issues no login or refresh HTTP call, and leaves the
context's access token unchanged. -/
theorem c6_authenticate_idempotent (env : Env) (t : String) (c a f : Option String) (rMe : Response)
    (ht : t ≠ "")
    (ho : env.oracle 0 (Req.get "/api/v1/me/" none) = Except.ok rMe)
    (hs : rMe.status = 200) :
    analytics_auth_authenticate_user env none none true ⟨⟨some t, c, a⟩, f, []⟩ =
      (Except.ok (JVal.obj [("message", JVal.str "Already authenticated with valid token"),
                            ("access_token", JVal.str t)]),
       ⟨⟨some t, c, a⟩, f, [Req.get "/api/v1/me/" none]⟩) ∧
    ([Req.get "/api/v1/me/" none].filter (Req.isPostTo "/api/v1/security/login")).length = 0 ∧
    ([Req.get "/api/v1/me/" none].filter (Req.isPostTo "/api/v1/security/refresh")).length = 0 := by
  have hval := check_validity_valid env ⟨⟨some t, c, a⟩, f, []⟩ t rMe rfl ht (by simpa using ho) hs
  refine ⟨?_, by simp [Req.isPostTo], by simp [Req.isPostTo]⟩
  simp [analytics_auth_authenticate_user, handle_platform_errors, authenticate_user_core,
    bind_app, pure_app, getWorld, M.tryCatch, truthyStr, ht, hval, valid_key_true]

/-- Claim C7: when the refresh POST returns status 200 with a body whose
`access_token` is `tok123`, refresh stores `tok123` in the credential
cache file, sets the context's access token to it, updates the client's
default Authorization header, returns the new token, and a subsequent
cache load yields that same value. -/
theorem c7_refresh_success_postcondition (env : Env) (w : World) (t : String) (rRef : Response)
    (ht : w.ctx.access_token = some t) (ht' : t ≠ "")
    (ho : env.oracle w.calls.length (Req.post "/api/v1/security/refresh" none none none) = Except.ok rRef)
    (hs : rRef.status = 200)
    (hb : rRef.body.get "access_token" = some (JVal.str "tok123")) :
    analytics_auth_refresh_token env w =
      (Except.ok (JVal.obj [("message", JVal.str "Successfully refreshed access token"),
                            ("access_token", JVal.str "tok123")]),
       { w with ctx := { w.ctx with access_token := some "tok123", auth_header := some ("Bearer " ++ "tok123") }, cache_file := some "tok123", calls := w.calls ++ [Req.post "/api/v1/security/refresh" none none none] }) ∧
    load_cached_token
      { w with ctx := { w.ctx with access_token := some "tok123", auth_header := some ("Bearer " ++ "tok123") }, cache_file := some "tok123", calls := w.calls ++ [Req.post "/api/v1/security/refresh" none none none] } =
      (Except.ok (some "tok123"),
       { w with ctx := { w.ctx with access_token := some "tok123", auth_header := some ("Bearer " ++ "tok123") }, cache_file := some "tok123", calls := w.calls ++ [Req.post "/api/v1/security/refresh" none none none] }) := by
  refine ⟨refresh_success env w t "tok123" rRef ht ht' ho hs hb (by decide), ?_⟩
  simp [load_cached_token, bind_app, pure_app, getWorld]
  decide

/-- Claim C2 (code bug): with the underlying call always returning 401,
the dispatcher, on the first 401, raises `ImportError` at core.py line
196 before any refresh or re-authentication attempt — the recovery calls
the claim presupposes never happen (and the `raise HTTPException` at line
204 would be a `NameError` anyway, `HTTPException` being undefined).  The
underlying call is executed exactly once (no infinite retry), no refresh
POST and no identity-check GET are ever issued, and the failure is the
`ImportError`, not an authentication error. -/
theorem c2_import_error_before_recovery (env : Env) (e t : String) (c a f : Option String)
    (params : Option JVal) (r1 : Response)
    (ht : t ≠ "") (he : e ≠ "/api/v1/me/")
    (hall : ∀ n, env.oracle n (Req.get e params) = Except.ok r1)
    (h401 : r1.status = 401) :
    make_platform_request env "get" e none params true ⟨⟨some t, c, a⟩, f, []⟩ =
      (Except.error (Exc.importError
        "cannot import name analytics_auth_refresh_token from app.tools.auth"),
       ⟨⟨some t, c, a⟩, f, [Req.get e params]⟩) ∧
    ([Req.get e params].filter (Req.isGetTo e)).length = 1 ∧
    ([Req.get e params].filter (Req.isPostTo "/api/v1/security/refresh")).length = 0 ∧
    ([Req.get e params].filter (Req.isGetTo "/api/v1/me/")).length = 0 := by
  have hc1 : make_request env "get" e none params ⟨⟨some t, c, a⟩, f, []⟩ =
      (Except.ok r1, ⟨⟨some t, c, a⟩, f, [Req.get e params]⟩) := by
    simp [make_request_get, hall 0]
  refine ⟨?_, by simp [Req.isGetTo], by simp [Req.isPostTo], by simp [Req.isGetTo, he]⟩
  simp [make_platform_request, bind_app, pure_app, getWorld, get_lower,
    auto_refresh_token, M.tryCatch, M.throw, hc1, h401, truthyStr, ht]

/-- Claim C9 (implicit): with a non-empty CSRF token held, a 200
CSRF-fetch response whose dict body lacks the `result` field overwrites
the held token with the absent value and returns empty, while a non-200
status or a transport failure leaves the existing token unchanged. -/
theorem c9_fetch_csrf_overwrite (env : Env) (w : World) (x : String)
    (hc : w.ctx.csrf_token = some x) (hx : x ≠ "") :
    (∀ (r : Response) (fields : List (String × JVal)),
      env.oracle w.calls.length (Req.get "/api/v1/security/csrf_token/" none) = Except.ok r →
      r.status = 200 → r.body = JVal.obj fields → List.lookup "result" fields = none →
      fetch_csrf_token env w =
        (Except.ok none,
         { w with ctx := { w.ctx with csrf_token := none },
                  calls := w.calls ++ [Req.get "/api/v1/security/csrf_token/" none] })) ∧
    (∀ r : Response, env.oracle w.calls.length (Req.get "/api/v1/security/csrf_token/" none) = Except.ok r →
      r.status ≠ 200 →
      fetch_csrf_token env w =
        (Except.ok none,
         { w with calls := w.calls ++ [Req.get "/api/v1/security/csrf_token/" none] })) ∧
    (∀ exc : Exc, env.oracle w.calls.length (Req.get "/api/v1/security/csrf_token/" none) = Except.error exc →
      fetch_csrf_token env w =
        (Except.ok none,
         { w with calls := w.calls ++ [Req.get "/api/v1/security/csrf_token/" none] })) := by
  refine ⟨?_, ?_, ?_⟩
  · intro r fields ho hs hb hlk
    simp [fetch_csrf_token, bind_app, pure_app, getWorld, M.tryCatch, M.pure,
      httpCall, modifyWorld, ho, hs, hb, JVal.get, hlk]
  · intro r ho hs
    simp [fetch_csrf_token, bind_app, pure_app, getWorld, M.tryCatch, M.pure,
      httpCall, modifyWorld, ho, hs]
  · intro exc ho
    simp [fetch_csrf_token, bind_app, pure_app, getWorld, M.tryCatch, M.pure,
      httpCall, modifyWorld, ho]

/-- Claim C10 (implicit) counterexample: at a concrete POST dispatch with
both tokens absent, the CSRF-fetch network call is issued and the call
then fails — but with the `NameError` raised by the undefined name
`HTTPException` at core.py line 184, not with an authentication error as
the claim states. -/
theorem c10_not_an_auth_error :
    (make_platform_request ⟨c9bOracle, none, none⟩ "post" "/api/v1/dashboard/" none none true
      ⟨⟨none, none, none⟩, none, []⟩).1 =
      Except.error (Exc.nameError "name HTTPException is not defined") ∧
    (make_platform_request ⟨c9bOracle, none, none⟩ "post" "/api/v1/dashboard/" none none true
      ⟨⟨none, none, none⟩, none, []⟩).1 ≠
      Except.error (Exc.httpException 401 "Not authenticated") ∧
    (make_platform_request ⟨c9bOracle, none, none⟩ "post" "/api/v1/dashboard/" none none true
      ⟨⟨none, none, none⟩, none, []⟩).2.calls =
      [Req.get "/api/v1/security/csrf_token/" none] := by
  refine ⟨rfl, ?_, rfl⟩
  rw [show (make_platform_request ⟨c9bOracle, none, none⟩ "post" "/api/v1/dashboard/" none none true
      ⟨⟨none, none, none⟩, none, []⟩).1 =
      Except.error (Exc.nameError "name HTTPException is not defined") from rfl]
  simp

/-- Claim C10 (implicit, amended): a non-GET dispatch in a context with no
CSRF token issues the CSRF-fetch HTTP call before the auto-refresh
wrapper's token check, so even with the access token absent exactly one
network call (the CSRF fetch) occurs before the call fails — with the
`NameError` arising from the undefined `HTTPException` name at core.py
line 184, rather than an authentication error. -/
theorem c10_csrf_fetch_before_name_error (env : Env) (method e : String) (c f : Option String)
    (dat params : Option JVal)
    (hm : pyLower method ≠ "get") :
    (make_platform_request env method e dat params true ⟨⟨none, none, c⟩, f, []⟩).1 =
      Except.error (Exc.nameError "name HTTPException is not defined") ∧
    (make_platform_request env method e dat params true ⟨⟨none, none, c⟩, f, []⟩).2.calls =
      [Req.get "/api/v1/security/csrf_token/" none] := by
  rcases ho : env.oracle 0 (Req.get "/api/v1/security/csrf_token/" none) with exc | r
  case error =>
    exact ⟨by simp [make_platform_request, bind_app, pure_app, getWorld, hm, truthyStr,
              fetch_csrf_token, M.tryCatch, M.pure, M.throw, httpCall, modifyWorld, ho,
              auto_refresh_token],
           by simp [make_platform_request, bind_app, pure_app, getWorld, hm, truthyStr,
              fetch_csrf_token, M.tryCatch, M.pure, M.throw, httpCall, modifyWorld, ho,
              auto_refresh_token]⟩
  case ok =>
    by_cases hs : r.status = 200 <;>
      exact ⟨by simp [make_platform_request, bind_app, pure_app, getWorld, hm, truthyStr,
                fetch_csrf_token, M.tryCatch, M.pure, M.throw, httpCall, modifyWorld, ho,
                auto_refresh_token, hs],
             by simp [make_platform_request, bind_app, pure_app, getWorld, hm, truthyStr,
                fetch_csrf_token, M.tryCatch, M.pure, M.throw, httpCall, modifyWorld, ho,
                auto_refresh_token, hs]⟩

/-- Claim C3 (code bug): the auto-refresh wrapper invoked with no access
token does fail immediately, leaving the state (in particular the call
log) untouched — no network call is attempted — but it fails with
`NameError`: `HTTPException` is never imported in core.py, so line 184
raises `NameError` instead of the authentication-required error the claim
and the code's own raise statement intend. -/
theorem c3_name_error_without_token (api_call : M Response) (w : World)
    (h : truthyStr w.ctx.access_token = false) :
    auto_refresh_token api_call w =
      (Except.error (Exc.nameError "name HTTPException is not defined"), w) := by
  simp [auto_refresh_token, bind_app, getWorld, M.throw, h]

/-- Claim C4: with the context's access token absent, the authenticated
guard returns exactly the unauthenticated-error payload without invoking
the wrapped tool body and with zero HTTP calls (the state is unchanged),
and so does the guarded dashboard-list tool. -/
theorem c4_requires_authentication_guard (env : Env) (body : M JVal) (w : World)
    (h : w.ctx.access_token = none) :
    requires_authentication body w =
      (Except.ok (JVal.obj [("error", JVal.str "Not authenticated. Please authenticate first.")]), w) ∧
    analytics_dashboard_list env w =
      (Except.ok (JVal.obj [("error", JVal.str "Not authenticated. Please authenticate first.")]), w) := by
  constructor
  · simp [requires_authentication, bind_app, getWorld, h, truthyStr, pure_app]
  · simp [analytics_dashboard_list, requires_authentication, bind_app, getWorld, h,
      truthyStr, pure_app]

/-- Claim C5: the dispatcher maps a response with status 200 or 201 to
its parsed JSON body, and any other (non-401) status to a structured error
object carrying the status code and raw text, without raising and without
retrying the underlying call. -/
theorem c5_response_mapping (env : Env) (e : String) (t : String) (c a f : Option String)
    (params : Option JVal) (r : Response)
    (ht : t ≠ "")
    (ho : env.oracle 0 (Req.get e params) = Except.ok r)
    (h401 : r.status ≠ 401) :
    (r.status = 200 ∨ r.status = 201 →
      make_platform_request env "get" e none params true ⟨⟨some t, c, a⟩, f, []⟩ =
        (Except.ok r.body, ⟨⟨some t, c, a⟩, f, [Req.get e params]⟩)) ∧
    (r.status ≠ 200 → r.status ≠ 201 →
      make_platform_request env "get" e none params true ⟨⟨some t, c, a⟩, f, []⟩ =
        (Except.ok (JVal.obj [("error", JVal.str
          ("API request failed: " ++ toString r.status ++ " - " ++ r.text))]),
         ⟨⟨some t, c, a⟩, f, [Req.get e params]⟩)) := by
  constructor
  · intro hs
    simp [make_platform_request, bind_app, pure_app, getWorld, get_lower,
      auto_refresh_token, M.tryCatch, M.throw, make_request_get, httpCall, ho, h401,
      truthyStr, ht]
    rcases hs with hs | hs <;> simp [hs, pure_app]
  · intro h2 h3
    simp [make_platform_request, bind_app, pure_app, getWorld, get_lower,
      auto_refresh_token, M.tryCatch, M.throw, make_request_get, httpCall, ho, h401,
      truthyStr, ht, h2, h3]

/-- Claim C8: the error-normalization guard converts any exception
raised by the wrapped body into exactly the error payload naming the
wrapped function, and every call through it returns a plain result — no
exception propagates past the tool boundary. -/
theorem c8_error_normalization (function_name : String) (body : M JVal) (w : World) :
    (∀ e w', body w = (Except.error e, w') →
      handle_platform_errors function_name body w =
        (Except.ok (JVal.obj [("error",
          JVal.str ("Error in " ++ function_name ++ ": " ++ e.msg))]), w')) ∧
    (∃ v w', handle_platform_errors function_name body w = (Except.ok v, w')) := by
  constructor
  · intro e w' h
    simp [handle_platform_errors, M.tryCatch, h, M.pure]
  · rcases hbw : body w with ⟨res, w'⟩
    cases res with
    | ok a => exact ⟨a, w', by simp [handle_platform_errors, M.tryCatch, hbw]⟩
    | error e =>
      exact ⟨JVal.obj [("error", JVal.str ("Error in " ++ function_name ++ ": " ++ e.msg))], w',
        by simp [handle_platform_errors, M.tryCatch, hbw, M.pure]⟩

theorem c1_import_error_on_401_witness :
    make_platform_request ⟨c1Oracle, none, none⟩ "get" "/api/v1/dashboard/" none none true wAuthed =
      (Except.error (Exc.importError
        "cannot import name analytics_auth_refresh_token from app.tools.auth"),
       ⟨⟨some "tk1", none, none⟩, none, [Req.get "/api/v1/dashboard/" none]⟩) ∧
    ([Req.get "/api/v1/dashboard/" none].filter (Req.isGetTo "/api/v1/dashboard/")).length = 1 ∧
    ([Req.get "/api/v1/dashboard/" none].filter (Req.isPostTo "/api/v1/security/refresh")).length = 0 := by
  have h := c1_import_error_on_401 ⟨c1Oracle, none, none⟩ "/api/v1/dashboard/" "tk1" "tk2"
    none none none none
    ⟨401, "unauthorized", JVal.null⟩ ⟨200, "", JVal.obj [("access_token", JVal.str "tk2")]⟩
    ⟨200, "", JVal.obj [("result", JVal.str "rows")]⟩
    (by decide) (by decide) rfl rfl rfl rfl rfl rfl rfl
  exact h

theorem c2_import_error_before_recovery_witness :
    make_platform_request ⟨c2Oracle, none, none⟩ "get" "/api/v1/dashboard/" none none true wAuthed =
      (Except.error (Exc.importError
        "cannot import name analytics_auth_refresh_token from app.tools.auth"),
       ⟨⟨some "tk1", none, none⟩, none, [Req.get "/api/v1/dashboard/" none]⟩) ∧
    ([Req.get "/api/v1/dashboard/" none].filter (Req.isGetTo "/api/v1/dashboard/")).length = 1 ∧
    ([Req.get "/api/v1/dashboard/" none].filter (Req.isPostTo "/api/v1/security/refresh")).length = 0 ∧
    ([Req.get "/api/v1/dashboard/" none].filter (Req.isGetTo "/api/v1/me/")).length = 0 := by
  have h := c2_import_error_before_recovery ⟨c2Oracle, none, none⟩ "/api/v1/dashboard/" "tk1"
    none none none none ⟨401, "unauthorized", JVal.null⟩
    (by decide) (by decide) (fun n => rfl) rfl
  exact h

theorem c3_name_error_without_token_witness :
    auto_refresh_token (M.pure ⟨200, "", JVal.null⟩) wEmpty =
      (Except.error (Exc.nameError "name HTTPException is not defined"), wEmpty) :=
  c3_name_error_without_token (M.pure ⟨200, "", JVal.null⟩) wEmpty rfl

theorem c4_requires_authentication_guard_witness :
    requires_authentication (M.pure JVal.null) wEmpty =
      (Except.ok (JVal.obj [("error", JVal.str "Not authenticated. Please authenticate first.")]),
       wEmpty) ∧
    analytics_dashboard_list ⟨c5Oracle, none, none⟩ wEmpty =
      (Except.ok (JVal.obj [("error", JVal.str "Not authenticated. Please authenticate first.")]),
       wEmpty) :=
  c4_requires_authentication_guard ⟨c5Oracle, none, none⟩ (M.pure JVal.null) wEmpty rfl

theorem c5_response_mapping_witness :
    make_platform_request ⟨c5Oracle, none, none⟩ "get" "/api/v1/dashboard/" none none true wAuthed =
      (Except.ok (JVal.obj [("error", JVal.str "API request failed: 404 - not found")]),
       ⟨⟨some "tk1", none, none⟩, none, [Req.get "/api/v1/dashboard/" none]⟩) := by
  have h := (c5_response_mapping ⟨c5Oracle, none, none⟩ "/api/v1/dashboard/" "tk1"
    none none none none ⟨404, "not found", JVal.null⟩
    (by decide) rfl (by decide)).2 (by decide) (by decide)
  exact h

theorem c6_authenticate_idempotent_witness :
    analytics_auth_authenticate_user ⟨c6Oracle, none, none⟩ none none true wAuthed =
      (Except.ok (JVal.obj [("message", JVal.str "Already authenticated with valid token"),
                            ("access_token", JVal.str "tk1")]),
       ⟨⟨some "tk1", none, none⟩, none, [Req.get "/api/v1/me/" none]⟩) ∧
    ([Req.get "/api/v1/me/" none].filter (Req.isPostTo "/api/v1/security/login")).length = 0 ∧
    ([Req.get "/api/v1/me/" none].filter (Req.isPostTo "/api/v1/security/refresh")).length = 0 := by
  have h := c6_authenticate_idempotent ⟨c6Oracle, none, none⟩ "tk1" none none none
    ⟨200, "", JVal.obj [("username", JVal.str "u")]⟩ (by decide) rfl rfl
  exact h

theorem c7_refresh_success_postcondition_witness :
    analytics_auth_refresh_token ⟨c7Oracle, none, none⟩ wAuthed =
      (Except.ok (JVal.obj [("message", JVal.str "Successfully refreshed access token"),
                            ("access_token", JVal.str "tok123")]),
       ⟨⟨some "tok123", none, some "Bearer tok123"⟩, some "tok123",
        [Req.post "/api/v1/security/refresh" none none none]⟩) ∧
    load_cached_token
      ⟨⟨some "tok123", none, some "Bearer tok123"⟩, some "tok123",
       [Req.post "/api/v1/security/refresh" none none none]⟩ =
      (Except.ok (some "tok123"),
       ⟨⟨some "tok123", none, some "Bearer tok123"⟩, some "tok123",
        [Req.post "/api/v1/security/refresh" none none none]⟩) := by
  have h := c7_refresh_success_postcondition ⟨c7Oracle, none, none⟩ wAuthed "tk1"
    ⟨200, "", JVal.obj [("access_token", JVal.str "tok123")]⟩ rfl (by decide) rfl rfl rfl
  exact h

theorem c8_error_normalization_witness :
    handle_platform_errors "analytics_dashboard_list" (M.throw (Exc.valueError "boom")) wEmpty =
      (Except.ok (JVal.obj [("error", JVal.str "Error in analytics_dashboard_list: boom")]),
       wEmpty) :=
  (c8_error_normalization "analytics_dashboard_list" (M.throw (Exc.valueError "boom")) wEmpty).1
    (Exc.valueError "boom") wEmpty rfl

theorem c9_fetch_csrf_overwrite_witness :
    fetch_csrf_token ⟨c9aOracle, none, none⟩ wCsrf =
      (Except.ok none,
       ⟨⟨some "tk1", none, none⟩, none, [Req.get "/api/v1/security/csrf_token/" none]⟩) ∧
    fetch_csrf_token ⟨c9bOracle, none, none⟩ wCsrf =
      (Except.ok none,
       ⟨⟨some "tk1", some "csrf0", none⟩, none, [Req.get "/api/v1/security/csrf_token/" none]⟩) ∧
    fetch_csrf_token ⟨c9cOracle, none, none⟩ wCsrf =
      (Except.ok none,
       ⟨⟨some "tk1", some "csrf0", none⟩, none, [Req.get "/api/v1/security/csrf_token/" none]⟩) := by
  refine ⟨?_, ?_, ?_⟩
  · exact (c9_fetch_csrf_overwrite ⟨c9aOracle, none, none⟩ wCsrf "csrf0" rfl (by decide)).1
      ⟨200, "", JVal.obj [("count", JVal.num 3)]⟩ [("count", JVal.num 3)] rfl rfl rfl rfl
  · exact (c9_fetch_csrf_overwrite ⟨c9bOracle, none, none⟩ wCsrf "csrf0" rfl (by decide)).2.1
      ⟨503, "down", JVal.null⟩ rfl (by decide)
  · exact (c9_fetch_csrf_overwrite ⟨c9cOracle, none, none⟩ wCsrf "csrf0" rfl (by decide)).2.2
      (Exc.transport "connection reset") rfl

theorem c10_csrf_fetch_before_name_error_witness :
    (make_platform_request ⟨c9cOracle, none, none⟩ "post" "/api/v1/dashboard/" none none true
      ⟨⟨none, none, none⟩, none, []⟩).1 =
      Except.error (Exc.nameError "name HTTPException is not defined") ∧
    (make_platform_request ⟨c9cOracle, none, none⟩ "post" "/api/v1/dashboard/" none none true
      ⟨⟨none, none, none⟩, none, []⟩).2.calls =
      [Req.get "/api/v1/security/csrf_token/" none] :=
  c10_csrf_fetch_before_name_error ⟨c9cOracle, none, none⟩ "post" "/api/v1/dashboard/"
    none none none none (by decide)
